import Mathlib

/-!
Shallow embedding of `src/Gui/AIChatPanel.{h,cpp}` (FreeCAD AI chat panel).

The panel is a Qt widget.  We model exactly the observable state the
specification talks about: the conversation history (`m_history`), the
ordered list of message bubbles in the messages layout, the loading-bubble
pointer (`m_loadingBubble`), the input field text, the waiting flag
(`m_isWaitingForResponse`), the send-button enabled state, and the list of
emitted Qt signals.  File I/O is modeled by passing the file's parsed
content explicitly; `QDateTime` is modeled as milliseconds since the epoch
(its actual resolution).  Pure UI concerns (style sheets, animations,
collapse state, scroll position) do not interact with any claim and are
not modeled.
-/

namespace AIChat

/-- `AIChatMessage::Role` from AIChatPanel.h: `enum Role { User, Assistant, System }`. -/
inductive Role where
  | user
  | assistant
  | system
  deriving DecidableEq, Repr

/-- `static_cast<int>(msg.role)`: the C++ enum values are 0, 1, 2. -/
def Role.toInt : Role → Int
  | .user => 0
  | .assistant => 1
  | .system => 2

/-- `static_cast<AIChatMessage::Role>(n)` as used in `loadConversation`.
For the in-range values 0, 1, 2 the cast restores the enumerator; a cast of
any other value is outside the defined enumerators in C++, we default it to
`User` (value 0, which is also what `toInt` yields for a missing field). -/
def roleOfInt (n : Int) : Role :=
  if n == 1 then .assistant else if n == 2 then .system else .user

/-- `struct AIChatMessage` (AIChatPanel.h).  `timestamp` is a `QDateTime`,
modeled as milliseconds since the epoch. -/
structure AIChatMessage where
  role : Role
  content : String
  timestamp : Nat
  isLoading : Bool := false
  deriving DecidableEq, Repr

/-- One `AIChatBubble` widget inside `m_messagesLayout`.  Widgets have
identity (pointers); we give each bubble a numeric id so that
`removeLoadingBubble`, which removes a specific widget, can be modeled. -/
structure Bubble where
  id : Nat
  msg : AIChatMessage
  deriving DecidableEq, Repr

/-- The Qt signals the panel emits (AIChatPanel.h, `Q_SIGNALS`). -/
inductive Signal where
  | messageSent (m : String)
  | responseReceived (r : String)
  | errorOccurred (e : String)
  | collapseStateChanged (b : Bool)
  deriving DecidableEq, Repr

/-- The observable state of one `AIChatPanel`. -/
structure PanelState where
  history : List AIChatMessage
  bubbles : List Bubble
  nextId : Nat
  inputField : String
  loadingBubble : Option Nat
  isWaitingForResponse : Bool
  sendEnabled : Bool
  emitted : List Signal
  deriving DecidableEq, Repr

/-- `AIChatPanel::addMessageBubble`: creates a new bubble widget for the
message and inserts it just before the trailing stretch, i.e. appends it. -/
def addMessageBubble (s : PanelState) (m : AIChatMessage) : PanelState :=
  { s with bubbles := s.bubbles ++ [⟨s.nextId, m⟩], nextId := s.nextId + 1 }

/-- `AIChatPanel::removeLoadingBubble`: if `m_loadingBubble` is set, remove
that widget from the layout and null the pointer; otherwise do nothing. -/
def removeLoadingBubble (s : PanelState) : PanelState :=
  match s.loadingBubble with
  | none => s
  | some i => { s with bubbles := s.bubbles.filter (fun b => b.id != i), loadingBubble := none }

/-- The welcome text added by the `AIChatPanel` constructor. -/
def welcomeText : String :=
  "Welcome to FreeCAD AI Assistant!\n\nYou can ask questions about:\n• CAD modeling techniques\n• FreeCAD commands and workflows\n• Part design and sketching\n• And much more!\n\nConfigure your API settings using the gear button above."

/-- A panel before the constructor adds the welcome bubble: empty layout,
empty history, no loading bubble, not waiting, send button enabled. -/
def emptyPanel : PanelState :=
  { history := [], bubbles := [], nextId := 0, inputField := "",
    loadingBubble := none, isWaitingForResponse := false, sendEnabled := true, emitted := [] }

/-- The state right after the `AIChatPanel` constructor ran at time `now`:
it calls `addMessageBubble` with the System welcome message (which is not
appended to `m_history`). -/
def initialPanel (now : Nat) : PanelState :=
  addMessageBubble emptyPanel { role := .system, content := welcomeText, timestamp := now }

/-- `QChar::isSpace` on the characters the panel can see: blank and the
ASCII control whitespace range 9..13. -/
def isQSpace (c : Char) : Bool := c.toNat == 32 || (9 ≤ c.toNat && c.toNat ≤ 13)

/-- `QString::trimmed()`: the string with leading and trailing whitespace
removed. -/
def trimmed (s : String) : String :=
  String.mk ((((s.data.dropWhile isQSpace).reverse).dropWhile isQSpace).reverse)

/-- `QChar::toLower` viewed as a code point: ASCII upper-case letters map
to their lower-case code, everything else is unchanged (the keyword
patterns are plain ASCII). -/
def lowerCode (c : Char) : Nat :=
  if 65 ≤ c.toNat && c.toNat ≤ 90 then c.toNat + 32 else c.toNat

/-- `s.toLower()` as a sequence of code points. -/
def lowerCodes (s : String) : List Nat := s.data.map lowerCode

/-- `message.toLower().contains(pat)`: case-insensitive substring test
(the patterns used are already lower-case, so lowering both sides is the
same test). -/
def containsCI (hay pat : String) : Bool :=
  (lowerCodes hay).tails.any (fun t => (lowerCodes pat).isPrefixOf t)

/-- Reply for messages containing "help" (sendMessage's simulated response). -/
def helpReply : String :=
  "I\x27m here to help you with FreeCAD!\n\n**Common tasks:**\n- Create a new document: `File > New`\n- Start a sketch: Select a face and click the sketch icon\n- Create a pad: Exit sketch and use the pad tool\n\nWhat would you like to know more about?"

/-- Reply for messages containing "sketch". -/
def sketchReply : String :=
  "**Sketching in FreeCAD:**\n\n1. Select a plane or face in the 3D view\n2. Click the **Create Sketch** button\n3. Use the sketcher tools to draw geometry\n4. Add constraints to fully define your sketch\n5. Close the sketch when done\n\nKey shortcuts:\n- `C`: Toggle construction mode\n- `X`: Toggle cross-hatching\n- `Escape`: Exit current tool"

/-- Reply for messages containing "pad" or "extrude". -/
def padReply : String :=
  "**Creating a Pad (Extrude):**\n\n1. First, create a closed sketch\n2. Exit the sketcher\n3. Select the sketch in the tree view\n4. Click the **Pad** tool or press `P`\n5. Set the length in the task panel\n6. Click OK to create the solid\n\nYou can also create pads with:\n- Symmetric to plane\n- Reversed direction\n- Taper angle"

/-- Reply for any other message. -/
def genericReply : String :=
  "Thank you for your message! I\x27m your FreeCAD AI assistant.\n\nI can help you with:\n- **Sketching** and part design\n- **Modeling** techniques and best practices\n- **FreeCAD commands** and shortcuts\n- **Troubleshooting** common issues\n\nWhat would you like to know?"

/-- The keyword dispatch inside `sendMessage`'s `QTimer::singleShot` lambda
(AIChatPanel.cpp lines 349-392): case-insensitive containment, checked in
order help, sketch, pad-or-extrude, otherwise generic. -/
def simulateResponse (message : String) : String :=
  if containsCI message "help" then helpReply
  else if containsCI message "sketch" then sketchReply
  else if containsCI message "pad" || containsCI message "extrude" then padReply
  else genericReply

/-- `AIChatPanel::sendMessage` up to (and excluding) the deferred timer
callback: guard on trimmed-empty input or waiting state, append the trimmed
user message to the history and as a bubble, clear the input field, insert
the loading bubble and remember it in `m_loadingBubble`, set the waiting
flag, disable the send button, and emit `messageSent` with the original
message. -/
def sendMessage (s : PanelState) (message : String) (now : Nat) : PanelState :=
  if (trimmed message).data.isEmpty || s.isWaitingForResponse then s
  else
    let userMsg : AIChatMessage := { role := .user, content := trimmed message, timestamp := now }
    let s1 := addMessageBubble { s with history := s.history ++ [userMsg] } userMsg
    let s2 := { s1 with inputField := "" }
    let loadingMsg : AIChatMessage :=
      { role := .assistant, content := "", timestamp := now, isLoading := true }
    let s3 := { s2 with bubbles := s2.bubbles ++ [Bubble.mk s2.nextId loadingMsg],
                        nextId := s2.nextId + 1,
                        loadingBubble := some s2.nextId }
    { s3 with isWaitingForResponse := true, sendEnabled := false,
              emitted := s3.emitted ++ [Signal.messageSent message] }

/-- The body of the `QTimer::singleShot` lambda in `sendMessage`, fired one
second later with the captured (untrimmed) message: pick the simulated
response, remove the loading bubble, append the assistant message to the
history and as a bubble, clear the waiting flag, re-enable the send button
and emit `responseReceived`. -/
def simulateResponseStep (s : PanelState) (message : String) (now : Nat) : PanelState :=
  let response := simulateResponse message
  let s1 := removeLoadingBubble s
  let assistantMsg : AIChatMessage := { role := .assistant, content := response, timestamp := now }
  let s2 := addMessageBubble { s1 with history := s1.history ++ [assistantMsg] } assistantMsg
  { s2 with isWaitingForResponse := false, sendEnabled := true,
            emitted := s2.emitted ++ [Signal.responseReceived response] }

/-- Welcome text added by `clearConversation`. -/
def clearedText : String := "Conversation cleared. How can I help you?"

/-- `AIChatPanel::clearConversation`: clear `m_history`, remove every bubble
widget from the layout, then add the System "cleared" bubble.  Note that the
source does not touch `m_loadingBubble`, the waiting flag or the send
button. -/
def clearConversation (s : PanelState) (now : Nat) : PanelState :=
  addMessageBubble { s with history := [], bubbles := [] }
    { role := .system, content := clearedText, timestamp := now }

/-- `AIChatPanel::onApiReplyFinished` with the reply's error status: `none`
models `QNetworkReply::NoError` (nothing happens), `some e` models an error
with `errorString() = e`: emit `errorOccurred`, remove the loading bubble,
add a System bubble "Error: e" (not appended to the history), clear the
waiting flag and re-enable the send button. -/
def onApiReplyFinished (s : PanelState) (err : Option String) (now : Nat) : PanelState :=
  match err with
  | none => s
  | some e =>
    let s1 := { s with emitted := s.emitted ++ [Signal.errorOccurred e] }
    let s2 := addMessageBubble (removeLoadingBubble s1)
      { role := .system, content := "Error: " ++ e, timestamp := now }
    { s2 with isWaitingForResponse := false, sendEnabled := true }

/-! ## JSON model (QJsonValue / QJsonObject / QJsonDocument) -/

/-- A `QJsonValue`.  Numbers are stored as `Int`: the panel only ever writes
the enum values 0, 1, 2. -/
inductive JVal where
  | null
  | jnum (n : Int)
  | jstr (s : String)
  | jarr (elems : List JVal)
  | jobj (fields : List (String × JVal))

/-- `QJsonObject::operator[]=`: set a key (replace if present, else add). -/
def objSet (fields : List (String × JVal)) (k : String) (v : JVal) : List (String × JVal) :=
  if fields.any (fun p => p.1 == k) then
    fields.map (fun p => if p.1 == k then (k, v) else p)
  else fields ++ [(k, v)]

/-- `QJsonObject::operator[]` (read): the value at the key, or Undefined
(modeled as `null`) when absent. -/
def objGet (fields : List (String × JVal)) (k : String) : JVal :=
  match fields.find? (fun p => p.1 == k) with
  | some p => p.2
  | none => .null

/-- `QJsonValue::toInt()`: the number if the value is one, otherwise 0. -/
def JVal.toIntDef : JVal → Int
  | .jnum n => n
  | _ => 0

/-- `QJsonValue::toString()`: the string if the value is one, otherwise "". -/
def JVal.toStringDef : JVal → String
  | .jstr s => s
  | _ => ""

/-- `QJsonValue::toObject()`: the fields if the value is an object,
otherwise the empty object. -/
def JVal.toObjectDef : JVal → List (String × JVal)
  | .jobj fields => fields
  | _ => []

/-! ### Qt::ISODate timestamps

`saveConversation` writes `msg.timestamp.toString(Qt::ISODate)` and
`loadConversation` reads it back with `QDateTime::fromString(s, Qt::ISODate)`.
The Qt::ISODate rendering has second resolution: the millisecond part of the
`QDateTime` is dropped (Qt provides Qt::ISODateWithMs for keeping it).  We
model the rendered string by the decimal numeral of the second count, which
is faithful in everything the panel relies on: the rendering is injective on
whole seconds, parsing inverts it, and sub-second information is lost. -/

/-- ASCII digit for a value 0..9. -/
def digitChar : Nat → Char
  | 0 => '0'
  | 1 => '1'
  | 2 => '2'
  | 3 => '3'
  | 4 => '4'
  | 5 => '5'
  | 6 => '6'
  | 7 => '7'
  | 8 => '8'
  | 9 => '9'
  | _ => '0'

/-- Numeric value of an ASCII digit. -/
def digitVal (c : Char) : Nat := c.toNat - 48

/-- Decimal digits of `n`, most significant first; `fuel` bounds recursion
depth (any `fuel` with `n < 10 ^ fuel` is enough). -/
def natCharsAux : Nat → Nat → List Char
  | 0, _ => []
  | fuel + 1, n =>
    if n < 10 then [digitChar n]
    else natCharsAux fuel (n / 10) ++ [digitChar (n % 10)]

/-- Decimal digits of `n`, most significant first. -/
def natChars (n : Nat) : List Char := natCharsAux (n + 1) n

/-- Read a decimal numeral back. -/
def charsToNat (l : List Char) : Nat :=
  l.foldl (fun acc c => acc * 10 + digitVal c) 0

/-- `QDateTime::toString(Qt::ISODate)` on a timestamp of `t` milliseconds:
renders the whole-second instant `t / 1000`, dropping milliseconds. -/
def toStringISODate (t : Nat) : String := String.mk (natChars (t / 1000))

/-- `QDateTime::fromString(s, Qt::ISODate)`, then viewed again as
milliseconds: the parsed instant has a zero millisecond part. -/
def fromStringISODate (s : String) : Nat := charsToNat s.data * 1000

/-! ## saveConversation / loadConversation -/

/-- The loop body of `saveConversation`: one `QJsonObject` per message with
the fields set in source order role, content, timestamp. -/
def msgToJson (m : AIChatMessage) : JVal :=
  .jobj (objSet (objSet (objSet [] "role" (.jnum m.role.toInt))
    "content" (.jstr m.content)) "timestamp" (.jstr (toStringISODate m.timestamp)))

/-- The `QJsonArray` built by `saveConversation` before writing. -/
def buildSaveDoc (hist : List AIChatMessage) : JVal :=
  .jarr (hist.foldl (fun arr m => arr ++ [msgToJson m]) [])

/-- `AIChatPanel::saveConversation`: build the document from the history,
then try to open the file for writing (`fileWritable`); on failure return
`false` and write nothing, otherwise write the document and return `true`. -/
def saveConversation (s : PanelState) (fileWritable : Bool) : Bool × Option JVal :=
  let doc := buildSaveDoc s.history
  if fileWritable then (true, some doc) else (false, none)

/-- `QJsonDocument::isArray` plus `QJsonDocument::array()`: a parsed
document (`none` models a file that exists but did not parse, i.e. a null
document) yields its elements exactly when it is an array. -/
def docArrayElems : Option JVal → Option (List JVal)
  | some (.jarr elems) => some elems
  | _ => none

/-- The loop body of `loadConversation`: decode one array element via
`toObject` and the defaulting accessors, then append it to the history and
the layout.  `isLoading` is left at its `false` default. -/
def decodeMsg (v : JVal) : AIChatMessage :=
  let obj := v.toObjectDef
  { role := roleOfInt (objGet obj "role").toIntDef,
    content := (objGet obj "content").toStringDef,
    timestamp := fromStringISODate (objGet obj "timestamp").toStringDef }

/-- One iteration of `loadConversation`'s for-loop. -/
def loadMessage (s : PanelState) (v : JVal) : PanelState :=
  let msg := decodeMsg v
  addMessageBubble { s with history := s.history ++ [msg] } msg

/-- `AIChatPanel::loadConversation`.  `file = none` models a file that
cannot be opened for reading; `file = some doc` gives the parse result of
its contents.  Returns false before touching any state if the file cannot
be opened or the document is not an array; otherwise clears the
conversation, appends every decoded element, and returns true. -/
def loadConversation (s : PanelState) (file : Option (Option JVal)) (now : Nat) :
    Bool × PanelState :=
  match file with
  | none => (false, s)
  | some doc =>
    match docArrayElems doc with
    | none => (false, s)
    | some msgs => (true, msgs.foldl loadMessage (clearConversation s now))

/-! ## AIChatBubble::formatContent

The three regex replacements use QRegularExpression patterns of the shape
`D(.+?)D` — a delimiter, a non-greedy non-empty run of `.` (any character
except a newline), and a closing delimiter — replaced globally.  We model
the engine's behaviour directly: scan left to right; at each position try
to match the opening delimiter and then the shortest non-empty newline-free
run followed by the closing delimiter; on a match, emit the replacement and
continue after the match; otherwise emit the character and move on. -/

/-- Match `pat` as a prefix, returning the rest of the input. -/
def stripPat : List Char → List Char → Option (List Char)
  | [], s => some s
  | _ :: _, [] => none
  | p :: ps, c :: cs => if c == p then stripPat ps cs else none

/-- Non-greedy search for the closing delimiter: `acc` holds the inner
characters read so far (reversed).  The close is tried as soon as at least
one inner character has been read (`.+?` takes the shortest non-empty run);
`.` does not match a newline. -/
def scanInner (close : List Char) : List Char → List Char → Option (List Char × List Char)
  | acc, s =>
    match acc, stripPat close s with
    | _ :: _, some rest => some (acc.reverse, rest)
    | _, _ =>
      match s with
      | [] => none
      | c :: cs => if c == '\n' then none else scanInner close (c :: acc) cs

/-- Global replacement of `dOpen (.+?) dClose` by `pre ++ inner ++ post`.
`fuel` bounds the recursion; every step consumes at least one input
character, so any `fuel ≥ s.length` computes the full replacement. -/
def replaceCore (dOpen dClose pre post : List Char) : Nat → List Char → List Char
  | 0, s => s
  | fuel + 1, s =>
    match s with
    | [] => []
    | c :: cs =>
      match stripPat dOpen s with
      | none => c :: replaceCore dOpen dClose pre post fuel cs
      | some rest =>
        match scanInner dClose [] rest with
        | none => c :: replaceCore dOpen dClose pre post fuel cs
        | some (inner, rest2) => pre ++ inner ++ post ++ replaceCore dOpen dClose pre post fuel rest2

/-- `QString::replace(QRegularExpression(dOpen (.+?) dClose), pre \1 post)`. -/
def replaceAllDelim (dOpen dClose pre post : List Char) (s : List Char) : List Char :=
  replaceCore dOpen dClose pre post s.length s

/-- Bold pass: `\*\*(.+?)\*\*` ↦ `<b>\1</b>`. -/
def boldRep (s : List Char) : List Char :=
  replaceAllDelim "**".data "**".data "<b>".data "</b>".data s

/-- Italic pass: `\*(.+?)\*` ↦ `<i>\1</i>`. -/
def italicRep (s : List Char) : List Char :=
  replaceAllDelim "*".data "*".data "<i>".data "</i>".data s

/-- Code pass: `` `(.+?)` `` ↦ the `<code>` element of the source. -/
def codeRep (s : List Char) : List Char :=
  replaceAllDelim "`".data "`".data "<code style=\x27background:#e8e8e8;padding:2px;\x27>".data "</code>".data s

/-- Line-break pass: plain `QString::replace("\n", "<br>")`. -/
def lineBreakRep (s : List Char) : List Char :=
  s.foldr (fun c acc => if c == '\n' then '<' :: 'b' :: 'r' :: '>' :: acc else c :: acc) []

/-- `AIChatBubble::formatContent`: the four substitutions in source order
bold, italic, code, line breaks. -/
def formatContent (content : String) : String :=
  String.mk (lineBreakRep (codeRep (italicRep (boldRep content.data))))

/-! ## Events and the loading-bubble invariant -/

/-- The operations that can touch the modeled state.  Timer callbacks and
network replies are single-threaded Qt events; allowing them at any point
only makes the invariant below stronger. -/
inductive Event where
  | send (msg : String) (now : Nat)
  | timerFire (msg : String) (now : Nat)
  | apiReply (err : Option String) (now : Nat)
  | clear (now : Nat)
  | load (file : Option (Option JVal)) (now : Nat)

/-- One event step of the panel. -/
def step (s : PanelState) : Event → PanelState
  | .send msg now => sendMessage s msg now
  | .timerFire msg now => simulateResponseStep s msg now
  | .apiReply err now => onApiReplyFinished s err now
  | .clear now => clearConversation s now
  | .load file now => (loadConversation s file now).2

/-- Number of loading bubbles currently displayed. -/
def loadingCount (s : PanelState) : Nat :=
  (s.bubbles.filter (fun b => b.msg.isLoading)).length

/-- The panel invariant: every displayed loading bubble is the one
`m_loadingBubble` points to, no loading bubble is displayed while the panel
is not waiting, and at most one loading bubble is displayed. -/
def Inv (s : PanelState) : Prop :=
  (∀ b ∈ s.bubbles, b.msg.isLoading = true → s.loadingBubble = some b.id) ∧
  (s.isWaitingForResponse = false → ∀ b ∈ s.bubbles, b.msg.isLoading = false) ∧
  loadingCount s ≤ 1

/-! ## Claim-side definitions -/

/-- What survives a save/load round trip of one message: role and content
verbatim, the timestamp truncated to whole seconds, `isLoading` reset. -/
def truncMsg (m : AIChatMessage) : AIChatMessage :=
  { role := m.role, content := m.content, timestamp := m.timestamp / 1000 * 1000 }

/-- The conversation-file object schema as the specification words it: an
object with an integer "role" field, a string "content" field and a
"timestamp" field holding the ISO-8601 rendering of the timestamp. -/
def msgJsonSpec (m : AIChatMessage) : JVal :=
  .jobj [("role", .jnum m.role.toInt), ("content", .jstr m.content),
         ("timestamp", .jstr (toStringISODate m.timestamp))]

/-! # Theorems -/

set_option maxRecDepth 100000

/-- Decimal digits evaluate back to their value. -/
theorem digitVal_digitChar (d : Nat) (hd : d < 10) : digitVal (digitChar d) = d := by
  interval_cases d <;> rfl

/-- Reading back the digit list of `n` from any accumulator. -/
theorem foldl_digits_natCharsAux (fuel : Nat) : ∀ n a, n < 10 ^ fuel →
    List.foldl (fun acc c => acc * 10 + digitVal c) a (natCharsAux fuel n)
      = a * 10 ^ (natCharsAux fuel n).length + n := by
  induction fuel with
  | zero =>
    intro n a h
    interval_cases n
    simp [natCharsAux]
  | succ fuel ih =>
    intro n a h
    by_cases hn : n < 10
    · simp [natCharsAux, hn, digitVal_digitChar n hn]
    · have hdiv : n / 10 < 10 ^ fuel := by
        rw [pow_succ] at h
        exact (Nat.div_lt_iff_lt_mul (by norm_num)).mpr h
      simp only [natCharsAux, if_neg hn, List.foldl_append, List.foldl_cons, List.foldl_nil,
        List.length_append, List.length_cons, List.length_nil]
      rw [ih (n / 10) a hdiv, digitVal_digitChar (n % 10) (Nat.mod_lt _ (by norm_num))]
      have hmod : n / 10 * 10 + n % 10 = n := by omega
      calc (a * 10 ^ (natCharsAux fuel (n / 10)).length + n / 10) * 10 + n % 10
          = a * (10 ^ (natCharsAux fuel (n / 10)).length * 10) + (n / 10 * 10 + n % 10) := by ring
        _ = a * 10 ^ ((natCharsAux fuel (n / 10)).length + 1) + n := by rw [hmod, pow_succ]

/-- Decimal round trip: the numeral of `n` reads back as `n`. -/
theorem charsToNat_natChars (n : Nat) : charsToNat (natChars n) = n := by
  have hlt : n < 10 ^ (n + 1) := by
    calc n < 10 ^ n := Nat.lt_pow_self (by norm_num) n
      _ ≤ 10 ^ (n + 1) := Nat.pow_le_pow_right (by norm_num) (Nat.le_succ n)
  unfold charsToNat natChars
  rw [foldl_digits_natCharsAux (n + 1) n 0 hlt]
  simp

/-- A Qt::ISODate round trip truncates to whole seconds. -/
theorem fromString_toString_ISODate (t : Nat) :
    fromStringISODate (toStringISODate t) = t / 1000 * 1000 := by
  show charsToNat (natChars (t / 1000)) * 1000 = t / 1000 * 1000
  rw [charsToNat_natChars]

/-- The cast of a role's integer value restores the role. -/
theorem roleOfInt_toInt (r : Role) : roleOfInt r.toInt = r := by
  cases r <;> rfl

/-- Decoding an encoded message yields the second-truncated message. -/
theorem decodeMsg_msgToJson (m : AIChatMessage) : decodeMsg (msgToJson m) = truncMsg m := by
  have h : decodeMsg (msgToJson m) =
      { role := roleOfInt m.role.toInt, content := m.content,
        timestamp := fromStringISODate (toStringISODate m.timestamp) } := rfl
  rw [h, roleOfInt_toInt, fromString_toString_ISODate]
  rfl

/-- Building a list by repeated append is a map. -/
theorem foldl_append_eq_map {α β : Type} (f : α → β) (l : List α) : ∀ acc : List β,
    l.foldl (fun arr m => arr ++ [f m]) acc = acc ++ l.map f := by
  induction l with
  | nil => intro acc; simp
  | cons x xs ih => intro acc; simp [ih]

/-- The document `saveConversation` builds is one object per message, in
history order. -/
theorem buildSaveDoc_eq (hist : List AIChatMessage) :
    buildSaveDoc hist = .jarr (hist.map msgToJson) := by
  unfold buildSaveDoc
  rw [foldl_append_eq_map msgToJson hist []]
  rfl

/-- The per-message loop body of `saveConversation` produces exactly the
specification's object schema. -/
theorem msgToJson_eq_spec : msgToJson = msgJsonSpec := by
  funext m
  rfl

/-- `loadConversation`'s loop appends the decoded messages to the history. -/
theorem foldl_load_history (l : List JVal) : ∀ st : PanelState,
    (l.foldl loadMessage st).history = st.history ++ l.map decodeMsg := by
  induction l with
  | nil => intro st; simp
  | cons v vs ih =>
    intro st
    rw [List.foldl_cons, ih]
    simp [loadMessage, addMessageBubble]

/-- C5: for every history, `saveConversation` writes a JSON array with one
object per message in history order, each object carrying an integer
"role", a string "content", and the timestamp rendered as an ISO-8601
string in "timestamp". -/
theorem c5_save_format (s : PanelState) :
    saveConversation s true = (true, some (.jarr (s.history.map msgJsonSpec))) := by
  show (true, some (buildSaveDoc s.history)) = _
  rw [buildSaveDoc_eq, msgToJson_eq_spec]

/-- C1 (amended): saving then loading reproduces the ordered message
sequence up to timestamps: same length, and at every index the same role
and content, with the timestamp truncated to whole seconds (Qt::ISODate
drops the millisecond part of a QDateTime). -/
theorem c1_roundtrip_amended (s target : PanelState) (now : Nat) :
    (loadConversation target (some (saveConversation s true).2) now).1 = true ∧
    (loadConversation target (some (saveConversation s true).2) now).2.history
      = s.history.map truncMsg := by
  have hdoc : (saveConversation s true).2 = some (.jarr (s.history.map msgToJson)) := by
    show some (buildSaveDoc s.history) = _
    rw [buildSaveDoc_eq]
  rw [hdoc]
  constructor
  · rfl
  · show (List.foldl loadMessage (clearConversation target now) (s.history.map msgToJson)).history = _
    rw [foldl_load_history]
    have hclear : (clearConversation target now).history = [] := rfl
    rw [hclear, List.nil_append, List.map_map]
    have : decodeMsg ∘ msgToJson = truncMsg := funext decodeMsg_msgToJson
    rw [this]

/-- C1 (counterexample): a history whose single message carries a
timestamp with a non-zero millisecond part is not reproduced by a save
followed by a load — the reloaded timestamp is truncated to the whole
second, so the claim "same timestamp at every index" fails. -/
theorem c1_roundtrip_counterexample :
    (loadConversation emptyPanel
        (some ((saveConversation
          { emptyPanel with history := [⟨.user, "hi", 1234, false⟩] } true).2)) 0).2.history
      ≠ [⟨.user, "hi", 1234, false⟩] ∧
    (loadConversation emptyPanel
        (some ((saveConversation
          { emptyPanel with history := [⟨.user, "hi", 1234, false⟩] } true).2)) 0).2.history
      = [⟨.user, "hi", 1000, false⟩] := by
  constructor
  · decide
  · decide

/-- C3: `loadConversation` returns false when the file cannot be opened,
false when the parsed document is not an array, and true otherwise. -/
theorem c3_load_result (s : PanelState) (now : Nat) (doc : Option JVal) :
    (loadConversation s none now).1 = false ∧
    (docArrayElems doc = none → (loadConversation s (some doc) now).1 = false) ∧
    (∀ elems, docArrayElems doc = some elems → (loadConversation s (some doc) now).1 = true) := by
  refine ⟨rfl, ?_, ?_⟩
  · intro h
    simp [loadConversation, h]
  · intro elems h
    simp [loadConversation, h]

/-- Witness for C3: a missing file, a non-array document, and an array
document, each with the stated result. -/
theorem c3_load_result_witness :
    (loadConversation (initialPanel 0) none 1).1 = false ∧
    (loadConversation (initialPanel 0) (some (some (.jnum 3))) 1).1 = false ∧
    (loadConversation (initialPanel 0) (some (some (.jarr []))) 1).1 = true :=
  ⟨(c3_load_result (initialPanel 0) 1 none).1,
   (c3_load_result (initialPanel 0) 1 (some (.jnum 3))).2.1 rfl,
   (c3_load_result (initialPanel 0) 1 (some (.jarr []))).2.2 [] rfl⟩

/-- C10: whenever `loadConversation` returns false, the history and the
displayed bubbles are unchanged — both failure checks precede the clearing
of the conversation. -/
theorem c10_load_atomic (s : PanelState) (file : Option (Option JVal)) (now : Nat)
    (h : (loadConversation s file now).1 = false) :
    (loadConversation s file now).2.history = s.history ∧
    (loadConversation s file now).2.bubbles = s.bubbles := by
  match file with
  | none => exact ⟨rfl, rfl⟩
  | some doc =>
    match harr : docArrayElems doc with
    | none => simp [loadConversation, harr]
    | some elems => simp [loadConversation, harr] at h

/-- Witness for C10: an unopenable file leaves the panel untouched. -/
theorem c10_load_atomic_witness :
    (loadConversation (initialPanel 0) none 1).1 = false ∧
    (loadConversation (initialPanel 0) none 1).2.history = (initialPanel 0).history :=
  ⟨rfl, (c10_load_atomic (initialPanel 0) none 1 rfl).1⟩

/-- C2 (amended): for every message whose trimmed form is non-empty, when
the panel is not waiting for a response, `sendMessage` appends exactly one
user entry to the history and exactly two bubbles: the user bubble and the
loading placeholder. -/
theorem c2_send_appends_amended (s : PanelState) (message : String) (now : Nat)
    (hw : s.isWaitingForResponse = false)
    (hne : (trimmed message).data.isEmpty = false) :
    (sendMessage s message now).history
      = s.history ++ [⟨.user, trimmed message, now, false⟩] ∧
    (sendMessage s message now).bubbles
      = s.bubbles ++ [Bubble.mk s.nextId ⟨.user, trimmed message, now, false⟩,
                      Bubble.mk (s.nextId + 1) ⟨.assistant, "", now, true⟩] := by
  constructor <;> simp [sendMessage, hne, hw, addMessageBubble]

/-- Witness for C2 (amended): a concrete padded message appends its trimmed
user entry. -/
theorem c2_send_appends_witness :
    (initialPanel 0).isWaitingForResponse = false ∧
    (trimmed "  hi  ").data.isEmpty = false ∧
    (sendMessage (initialPanel 0) "  hi  " 7).history
      = (initialPanel 0).history ++ [⟨.user, trimmed "  hi  ", 7, false⟩] :=
  ⟨rfl, by decide, (c2_send_appends_amended (initialPanel 0) "  hi  " 7 rfl (by decide)).1⟩

/-- C2 (counterexample): a single blank is a non-empty message string, yet
`sendMessage` appends nothing — the guard tests the trimmed message. -/
theorem c2_send_counterexample :
    (" " : String) ≠ "" ∧ sendMessage (initialPanel 0) " " 5 = initialPanel 0 := by
  constructor
  · decide
  · decide

/-- The loading-bubble pointer is null after `removeLoadingBubble`. -/
theorem removeLoadingBubble_ptr (s : PanelState) :
    (removeLoadingBubble s).loadingBubble = none := by
  cases h : s.loadingBubble <;> simp [removeLoadingBubble, h]

/-- `removeLoadingBubble` does not change the history. -/
theorem removeLoadingBubble_history (s : PanelState) :
    (removeLoadingBubble s).history = s.history := by
  cases h : s.loadingBubble <;> simp [removeLoadingBubble, h]

/-- `removeLoadingBubble` does not change the id counter. -/
theorem removeLoadingBubble_nextId (s : PanelState) :
    (removeLoadingBubble s).nextId = s.nextId := by
  cases h : s.loadingBubble <;> simp [removeLoadingBubble, h]

/-- C4: the simulated reply is chosen by case-insensitive keyword
containment in source order — help, then sketch, then pad-or-extrude, then
the generic reply — and the timer callback removes the loading bubble,
appends the chosen reply to the history as an Assistant message and
displays it as a bubble after the remaining bubbles. -/
theorem c4_simulated_reply (s : PanelState) (message : String) (now : Nat) :
    (containsCI message "help" = true → simulateResponse message = helpReply) ∧
    (containsCI message "help" = false → containsCI message "sketch" = true →
      simulateResponse message = sketchReply) ∧
    (containsCI message "help" = false → containsCI message "sketch" = false →
      (containsCI message "pad" || containsCI message "extrude") = true →
      simulateResponse message = padReply) ∧
    (containsCI message "help" = false → containsCI message "sketch" = false →
      (containsCI message "pad" || containsCI message "extrude") = false →
      simulateResponse message = genericReply) ∧
    (simulateResponseStep s message now).history
      = s.history ++ [⟨.assistant, simulateResponse message, now, false⟩] ∧
    (simulateResponseStep s message now).bubbles
      = (removeLoadingBubble s).bubbles
        ++ [Bubble.mk s.nextId ⟨.assistant, simulateResponse message, now, false⟩] := by
  refine ⟨?_, ?_, ?_, ?_, ?_, ?_⟩
  · intro h; simp [simulateResponse, h]
  · intro h1 h2; simp [simulateResponse, h1, h2]
  · intro h1 h2 h3; simp [simulateResponse, h1, h2, h3]
  · intro h1 h2 h3; simp [simulateResponse, h1, h2, h3]
  · simp [simulateResponseStep, addMessageBubble, removeLoadingBubble_history]
  · simp [simulateResponseStep, addMessageBubble, removeLoadingBubble_nextId]

/-- Witness for C4: each branch of the keyword dispatch at a concrete
message. -/
theorem c4_simulated_reply_witness :
    simulateResponse "Please HELP me" = helpReply ∧
    simulateResponse "my Sketch" = sketchReply ∧
    simulateResponse "EXTRUDE it" = padReply ∧
    simulateResponse "good morning" = genericReply :=
  ⟨(c4_simulated_reply (initialPanel 0) "Please HELP me" 0).1 (by decide),
   (c4_simulated_reply (initialPanel 0) "my Sketch" 0).2.1 (by decide) (by decide),
   (c4_simulated_reply (initialPanel 0) "EXTRUDE it" 0).2.2.1 (by decide) (by decide) (by decide),
   (c4_simulated_reply (initialPanel 0) "good morning" 0).2.2.2.1 (by decide) (by decide) (by decide)⟩

/-- C6: a finished reply with an error emits `errorOccurred`, removes the
loading bubble, adds a System bubble with the error string, clears the
waiting flag and re-enables the send button. -/
theorem c6_reply_error (s : PanelState) (e : String) (now : Nat) :
    (onApiReplyFinished s (some e) now).emitted = s.emitted ++ [Signal.errorOccurred e] ∧
    (onApiReplyFinished s (some e) now).bubbles
      = (removeLoadingBubble s).bubbles
        ++ [Bubble.mk s.nextId ⟨.system, "Error: " ++ e, now, false⟩] ∧
    (onApiReplyFinished s (some e) now).loadingBubble = none ∧
    (onApiReplyFinished s (some e) now).isWaitingForResponse = false ∧
    (onApiReplyFinished s (some e) now).sendEnabled = true := by
  refine ⟨?_, ?_, ?_, rfl, rfl⟩ <;>
    cases h : s.loadingBubble <;>
      simp [onApiReplyFinished, addMessageBubble, removeLoadingBubble, h]

/-- C8: `sendMessage` and the deferred reply only append to the history,
and `clearConversation` resets it to the empty sequence. -/
theorem c8_history_lifecycle (s : PanelState) (msg : String) (now : Nat) :
    (∃ t, (sendMessage s msg now).history = s.history ++ t) ∧
    (∃ t, (simulateResponseStep s msg now).history = s.history ++ t) ∧
    (clearConversation s now).history = [] := by
  refine ⟨?_, ?_, rfl⟩
  · by_cases h : ((trimmed msg).data.isEmpty || s.isWaitingForResponse) = true
    · exact ⟨[], by simp [sendMessage, h]⟩
    · exact ⟨[⟨.user, trimmed msg, now, false⟩], by
        simp only [Bool.or_eq_true, not_or, Bool.not_eq_true] at h
        simp [sendMessage, h.1, h.2, addMessageBubble]⟩
  · exact ⟨[⟨.assistant, simulateResponse msg, now, false⟩], by
      simp [simulateResponseStep, addMessageBubble, removeLoadingBubble_history]⟩

/-- C7: `formatContent` performs, in order, the global non-greedy bold,
italic and code substitutions and then replaces every newline with a break —
demonstrated also on concrete inputs for each pass, for repeated spans,
and for the bold-before-italic ordering. -/
theorem c7_format_passes :
    (∀ content : String,
      formatContent content
        = String.mk (lineBreakRep (codeRep (italicRep (boldRep content.data))))) ∧
    formatContent "**a** and **b**" = "<b>a</b> and <b>b</b>" ∧
    formatContent "*a*" = "<i>a</i>" ∧
    formatContent "`a`" = "<code style=\x27background:#e8e8e8;padding:2px;\x27>a</code>" ∧
    formatContent "line1\nline2" = "line1<br>line2" ∧
    formatContent "**a**" = "<b>a</b>" :=
  ⟨fun _ => rfl, by decide, by decide, by decide, by decide, by decide⟩

/-- A bubble list with no loading bubble filters to the empty list. -/
theorem filter_loading_nil (l : List Bubble) (h : ∀ b ∈ l, b.msg.isLoading = false) :
    l.filter (fun b => b.msg.isLoading) = [] := by
  induction l with
  | nil => rfl
  | cons b bs ih =>
    have hb := h b (by simp)
    have hbs : ∀ x ∈ bs, x.msg.isLoading = false := fun x hx => h x (by simp [hx])
    simp [List.filter_cons, hb, ih hbs]

/-- A state with no displayed loading bubble satisfies the invariant. -/
theorem inv_of_noLoading (s : PanelState) (h : ∀ b ∈ s.bubbles, b.msg.isLoading = false) :
    Inv s := by
  refine ⟨?_, fun _ => h, ?_⟩
  · intro b hb hL
    rw [h b hb] at hL
    exact Bool.noConfusion hL
  · show (s.bubbles.filter (fun b => b.msg.isLoading)).length ≤ 1
    rw [filter_loading_nil s.bubbles h]
    simp

/-- After `removeLoadingBubble`, no loading bubble remains (given that
every loading bubble was the tracked one). -/
theorem removeLoadingBubble_noLoading (s : PanelState)
    (h1 : ∀ b ∈ s.bubbles, b.msg.isLoading = true → s.loadingBubble = some b.id) :
    ∀ b ∈ (removeLoadingBubble s).bubbles, b.msg.isLoading = false := by
  intro b hb
  cases h : s.loadingBubble with
  | none =>
    simp only [removeLoadingBubble, h] at hb
    rcases Bool.eq_false_or_eq_true b.msg.isLoading with hL | hL
    · have h2 := h1 b hb hL
      rw [h] at h2
      exact Option.noConfusion h2
    · exact hL
  | some i =>
    simp only [removeLoadingBubble, h] at hb
    rw [List.mem_filter] at hb
    rcases Bool.eq_false_or_eq_true b.msg.isLoading with hL | hL
    · have h2 := h1 b hb.1 hL
      rw [h] at h2
      have h3 : i = b.id := by injection h2
      have h4 := hb.2
      simp [h3] at h4
    · exact hL

/-- `loadConversation`'s loop adds no loading bubble. -/
theorem foldl_load_noLoading (l : List JVal) : ∀ st : PanelState,
    (∀ b ∈ st.bubbles, b.msg.isLoading = false) →
    ∀ b ∈ (l.foldl loadMessage st).bubbles, b.msg.isLoading = false := by
  induction l with
  | nil => intro st h; exact h
  | cons v vs ih =>
    intro st h
    rw [List.foldl_cons]
    apply ih
    intro b hb
    simp [loadMessage, addMessageBubble] at hb
    rcases hb with hb | hb
    · exact h b hb
    · rw [hb]
      rfl

/-- `clearConversation` leaves only the non-loading welcome bubble. -/
theorem clear_noLoading (s : PanelState) (now : Nat) :
    ∀ b ∈ (clearConversation s now).bubbles, b.msg.isLoading = false := by
  intro b hb
  simp [clearConversation, addMessageBubble] at hb
  rw [hb]

/-- `sendMessage` preserves the invariant. -/
theorem inv_sendMessage (s : PanelState) (msg : String) (now : Nat) (h : Inv s) :
    Inv (sendMessage s msg now) := by
  obtain ⟨h1, h2, h3⟩ := h
  by_cases hc : ((trimmed msg).data.isEmpty || s.isWaitingForResponse) = true
  · have hs : sendMessage s msg now = s := by simp [sendMessage, hc]
    rw [hs]
    exact ⟨h1, h2, h3⟩
  · simp only [Bool.or_eq_true, not_or, Bool.not_eq_true] at hc
    obtain ⟨hne, hw⟩ := hc
    have hnl : ∀ b ∈ s.bubbles, b.msg.isLoading = false := h2 hw
    have hb : (sendMessage s msg now).bubbles = s.bubbles ++
        [Bubble.mk s.nextId ⟨.user, trimmed msg, now, false⟩,
         Bubble.mk (s.nextId + 1) ⟨.assistant, "", now, true⟩] := by
      simp [sendMessage, hne, hw, addMessageBubble]
    have hp : (sendMessage s msg now).loadingBubble = some (s.nextId + 1) := by
      simp [sendMessage, hne, hw, addMessageBubble]
    have hwt : (sendMessage s msg now).isWaitingForResponse = true := by
      simp [sendMessage, hne, hw]
    refine ⟨?_, ?_, ?_⟩
    · intro b hbm hL
      rw [hb] at hbm
      rw [hp]
      simp at hbm
      rcases hbm with hbm | hbm | hbm
      · rw [hnl b hbm] at hL
        exact Bool.noConfusion hL
      · rw [hbm] at hL
        exact Bool.noConfusion hL
      · rw [hbm]
    · intro hwf
      rw [hwt] at hwf
      exact Bool.noConfusion hwf
    · show ((sendMessage s msg now).bubbles.filter (fun b => b.msg.isLoading)).length ≤ 1
      rw [hb, List.filter_append, filter_loading_nil s.bubbles hnl]
      simp

/-- The deferred simulated reply preserves the invariant. -/
theorem inv_simulateResponseStep (s : PanelState) (msg : String) (now : Nat) (h : Inv s) :
    Inv (simulateResponseStep s msg now) := by
  obtain ⟨h1, _, _⟩ := h
  apply inv_of_noLoading
  have hb : (simulateResponseStep s msg now).bubbles =
      (removeLoadingBubble s).bubbles
        ++ [Bubble.mk s.nextId ⟨.assistant, simulateResponse msg, now, false⟩] := by
    simp [simulateResponseStep, addMessageBubble, removeLoadingBubble_nextId]
  rw [hb]
  intro b hbm
  rcases List.mem_append.mp hbm with hm | hm
  · exact removeLoadingBubble_noLoading s h1 b hm
  · rw [List.mem_singleton.mp hm]

/-- The network-error handler preserves the invariant. -/
theorem inv_onApiReplyFinished (s : PanelState) (err : Option String) (now : Nat) (h : Inv s) :
    Inv (onApiReplyFinished s err now) := by
  match err with
  | none => exact h
  | some e =>
    obtain ⟨h1, _, _⟩ := h
    apply inv_of_noLoading
    have hb : (onApiReplyFinished s (some e) now).bubbles =
        (removeLoadingBubble s).bubbles
          ++ [Bubble.mk s.nextId ⟨.system, "Error: " ++ e, now, false⟩] := by
      cases hp : s.loadingBubble <;>
        simp [onApiReplyFinished, removeLoadingBubble, addMessageBubble, hp]
    rw [hb]
    intro b hbm
    rcases List.mem_append.mp hbm with hm | hm
    · exact removeLoadingBubble_noLoading s h1 b hm
    · rw [List.mem_singleton.mp hm]

/-- `clearConversation` preserves the invariant. -/
theorem inv_clearConversation (s : PanelState) (now : Nat) :
    Inv (clearConversation s now) :=
  inv_of_noLoading _ (clear_noLoading s now)

/-- `loadConversation` preserves the invariant. -/
theorem inv_loadConversation (s : PanelState) (file : Option (Option JVal)) (now : Nat)
    (h : Inv s) : Inv (loadConversation s file now).2 := by
  match file with
  | none => exact h
  | some doc =>
    match harr : docArrayElems doc with
    | none =>
      simp only [loadConversation, harr]
      exact h
    | some elems =>
      simp only [loadConversation, harr]
      exact inv_of_noLoading _
        (foldl_load_noLoading elems (clearConversation s now) (clear_noLoading s now))

/-- C9: while the panel is waiting for a response every further
`sendMessage` call is a no-op (the whole state — history, input field,
bubbles, emitted signals — is unchanged), and across every event the panel
invariant holds, so at most one loading bubble is ever displayed. -/
theorem c9_waiting_noop_invariant :
    (∀ (s : PanelState) (msg : String) (now : Nat),
      s.isWaitingForResponse = true → sendMessage s msg now = s) ∧
    (∀ now, Inv (initialPanel now)) ∧
    (∀ (s : PanelState) (e : Event), Inv s → Inv (step s e)) := by
  refine ⟨?_, ?_, ?_⟩
  · intro s msg now h
    simp [sendMessage, h]
  · intro now
    apply inv_of_noLoading
    intro b hb
    simp [initialPanel, addMessageBubble, emptyPanel] at hb
    rw [hb]
  · intro s e h
    cases e with
    | send msg now => exact inv_sendMessage s msg now h
    | timerFire msg now => exact inv_simulateResponseStep s msg now h
    | apiReply err now => exact inv_onApiReplyFinished s err now h
    | clear now => exact inv_clearConversation s now
    | load file now => exact inv_loadConversation s file now h

/-- Witness for C9: a concrete waiting state absorbs a send, and the
invariant holds after a concrete event from the initial state. -/
theorem c9_waiting_noop_invariant_witness :
    sendMessage { initialPanel 0 with isWaitingForResponse := true } "hello" 5
      = { initialPanel 0 with isWaitingForResponse := true } ∧
    Inv (step (initialPanel 0) (Event.clear 3)) :=
  ⟨c9_waiting_noop_invariant.1 _ "hello" 5 rfl,
   c9_waiting_noop_invariant.2.2 (initialPanel 0) (Event.clear 3)
     (c9_waiting_noop_invariant.2.1 0)⟩

end AIChat
